import Mathlib

/-!
A shallow embedding of the Netflix dashboard script (`app.py`).

The script loads a CSV with pandas, cleans it (`fillna` on three text columns,
`dropna` on `rating`, `date_added`, `duration`, `to_datetime` on `date_added`),
builds sidebar filter options, filters the catalog by type / rating / release
year, and renders summary metrics and chart aggregations.

Modelling conventions:
* a DataFrame row is a `Row`; columns pandas may hold as `NaN` are `Option`;
* `date_added` stands for the datetime produced by `pd.to_datetime` as a
  `(year, month)` pair (the script only ever uses `.dt.year` / `.dt.month_name`);
* a whole DataFrame is a `PDFrame`: the empty frame `pd.DataFrame()` returned on
  a missing file has no columns at all, recorded by `hasCols := false`, and a
  column access on it raises `KeyError`, modelled with `Except`;
* machine-level string helpers (`str.split`, `str.contains`, `str.replace`,
  `astype(int)`) are re-implemented structurally over `List Char`.
-/

/-- One row of the catalog DataFrame, after `pd.read_csv` and (for
`date_added`) datetime parsing. -/
structure Row where
  type : String
  rating : Option String
  release_year : Int
  date_added : Option (Nat × Nat)
  country : Option String
  director : Option String
  cast : Option String
  listed_in : Option String
  duration : Option String
deriving DecidableEq

/-- The `fillna('Unknown')` step of `load_data` applied to the three list-valued
text columns (`country`, `director`, `cast`). -/
def fillRow (r : Row) : Row :=
  { r with
    country := some (r.country.getD "Unknown")
    director := some (r.director.getD "Unknown")
    cast := some (r.cast.getD "Unknown") }

/-- The `dropna(subset=['rating', 'date_added', 'duration'])` predicate of
`load_data`: a row is kept iff none of the three fields is missing. -/
def keepRow (r : Row) : Bool :=
  r.rating.isSome && r.date_added.isSome && r.duration.isSome

/-- The cleaning body of `load_data`: `fillna` on `country`/`director`/`cast`,
then `dropna` on `rating`/`date_added`/`duration`.  The final
`pd.to_datetime(..., format='mixed')` is the identity here because `date_added`
is already modelled as the parsed `(year, month)`. -/
def load_data (rows : List Row) : List Row :=
  (rows.map fillRow).filter keepRow

/-- A pandas DataFrame as the script sees it: `pd.DataFrame()` (the value
returned by `load_data` when the file is missing) has no columns at all, so any
column access on it raises `KeyError`; `hasCols` records whether the catalog
columns exist. -/
structure PDFrame where
  hasCols : Bool
  rows : List Row
deriving DecidableEq

/-- `load_data` seen from the outside: `fs` is the file system (`none` means
`pd.read_csv` raises `FileNotFoundError`).  On a missing file the script shows
`st.error` and returns the empty `pd.DataFrame()`, which has no columns. -/
def load_data_fs (fs : String → Option (List Row)) (path : String) : PDFrame :=
  match fs path with
  | some raw => ⟨true, load_data raw⟩
  | none => ⟨false, []⟩

/-- Distinct elements of a list (the key set of `Series.unique` /
`value_counts` / `groupby`); order is deterministic but irrelevant to every
property proved below. -/
def uniqKeys {α : Type} [DecidableEq α] : List α → List α
  | [] => []
  | x :: xs => if x ∈ xs then uniqKeys xs else x :: uniqKeys xs

/-- Number of occurrences of `k` in `l`. -/
def cnt {α : Type} [DecidableEq α] (k : α) (l : List α) : Nat :=
  l.countP (fun a => decide (a = k))

/-- First-match association-list lookup. -/
def lookupD {α β : Type} [DecidableEq α] (k : α) : List (α × β) → Option β
  | [] => none
  | (a, b) :: ps => if a = k then some b else lookupD k ps

/-- String order used by Python's `sorted` on the rating vocabulary. -/
def strLE (a b : String) : Prop := a ≤ b

instance : DecidableRel strLE := fun a b => inferInstanceAs (Decidable (a ≤ b))

/-- `df['type'].unique()` (line 36): raises `KeyError` on the column-less empty
frame. -/
def type_options (df : PDFrame) : Except String (List String) :=
  if df.hasCols then .ok (uniqKeys (df.rows.map Row.type))
  else .error "KeyError: type"

/-- `sorted(df['rating'].unique())` (line 44): raises `KeyError` on the
column-less empty frame. -/
def rating_options (df : PDFrame) : Except String (List String) :=
  if df.hasCols then .ok (List.insertionSort strLE (uniqKeys (df.rows.filterMap Row.rating)))
  else .error "KeyError: rating"

/-- `int(df['release_year'].min())` (line 52): `KeyError` without the column,
`ValueError` on an empty column (`int(nan)`). -/
def min_year (df : PDFrame) : Except String Int :=
  if df.hasCols then
    match df.rows.map Row.release_year with
    | [] => .error "ValueError: cannot convert NaN to int"
    | y :: ys => .ok (ys.foldl min y)
  else .error "KeyError: release_year"

/-- `int(df['release_year'].max())` (line 53). -/
def max_year (df : PDFrame) : Except String Int :=
  if df.hasCols then
    match df.rows.map Row.release_year with
    | [] => .error "ValueError: cannot convert NaN to int"
    | y :: ys => .ok (ys.foldl max y)
  else .error "KeyError: release_year"

/-- The sidebar construction (lines 36-59) in script order: type options,
rating options, year-slider bounds.  The first failing step aborts the script,
exactly as an uncaught Python exception would. -/
def sidebar_options (df : PDFrame) : Except String (List String × List String × Int × Int) := do
  let t ← type_options df
  let rOpts ← rating_options df
  let mn ← min_year df
  let mx ← max_year df
  .ok (t, rOpts, mn, mx)

/-- Membership of a possibly-missing rating in the selected rating list
(`df['rating'].isin(rating_filter)`; a `NaN` cell is not `isin` any string). -/
def ratingMem (o : Option String) (ratingF : List String) : Bool :=
  match o with
  | some s => decide (s ∈ ratingF)
  | none => false

/-- The conjunction of the four boolean masks of lines 62-67. -/
def rowMask (typeF ratingF : List String) (ylo yhi : Int) (r : Row) : Bool :=
  decide (r.type ∈ typeF) && ratingMem r.rating ratingF &&
    decide (ylo ≤ r.release_year) && decide (r.release_year ≤ yhi)

/-- `filtered_df = df[(type mask) & (rating mask) & (year masks)]`
(lines 62-67): boolean-mask selection keeps exactly the rows satisfying the
conjunction, in order. -/
def filtered_df (df : List Row) (typeF ratingF : List String) (ylo yhi : Int) : List Row :=
  df.filter (rowMask typeF ratingF ylo yhi)

/-- `total_titles = filtered_df.shape[0]` (line 77). -/
def total_titles (f : List Row) : Nat := f.length

/-- `total_movies = filtered_df[filtered_df['type'] == 'Movie'].shape[0]`
(line 78). -/
def total_movies (f : List Row) : Nat :=
  f.countP (fun r => decide (r.type = "Movie"))

/-- `total_shows = filtered_df[filtered_df['type'] == 'TV Show'].shape[0]`
(line 79). -/
def total_shows (f : List Row) : Nat :=
  f.countP (fun r => decide (r.type = "TV Show"))

/-- Python's `str.split(', ')` over the character list: split on every
occurrence of the two-character separator; `"".split(', ') = ['']`. -/
def splitCS : List Char → List (List Char)
  | ',' :: ' ' :: rest => [] :: splitCS rest
  | c :: rest =>
    match splitCS rest with
    | [] => [[c]]
    | g :: gs => (c :: g) :: gs
  | [] => [[]]

/-- `Series.str.split(', ')` applied to one cell. -/
def splitComma (s : String) : List String :=
  (splitCS s.data).map String.mk

/-- `listed_in.str.split(', ').str[0]`: the first genre tag. -/
def mainGenre (s : String) : String :=
  (splitComma s).headD ""

/-- `str.contains(' min')` over the character list (substring test for the
four-character pattern `' min'`). -/
def containsMinCh : List Char → Bool
  | ' ' :: 'm' :: 'i' :: 'n' :: _ => true
  | _ :: rest => containsMinCh rest
  | [] => false

/-- `duration.str.contains(' min', na=False)` applied to one cell. -/
def containsMin (s : String) : Bool := containsMinCh s.data

/-- `str.replace(' min', '')` over the character list: remove every
left-to-right non-overlapping occurrence of `' min'`. -/
def stripMinCh : List Char → List Char
  | ' ' :: 'm' :: 'i' :: 'n' :: rest => stripMinCh rest
  | c :: rest => c :: stripMinCh rest
  | [] => []

/-- The decimal value of an ASCII digit. -/
def digitVal (c : Char) : Option Nat :=
  if 48 ≤ c.toNat ∧ c.toNat ≤ 57 then some (c.toNat - 48) else none

/-- Parse a non-empty all-digit character list as a natural number. -/
def parseNatChars (l : List Char) : Option Nat :=
  match l with
  | [] => none
  | _ :: _ =>
    l.foldl (fun acc c => match acc, digitVal c with
      | some n, some d => some (n * 10 + d)
      | _, _ => none) (some 0)

/-- Python's `int(...)` on a string: optional sign followed by digits; raises
(`none`) otherwise. -/
def parseIntChars : List Char → Option Int
  | '-' :: rest => (parseNatChars rest).map (fun n => -(n : Int))
  | '+' :: rest => (parseNatChars rest).map (fun n => (n : Int))
  | l => (parseNatChars l).map (fun n => (n : Int))

/-- `duration.str.replace(' min', '').astype(int)` applied to one cell
(line 208): strip the unit suffix, then integer conversion. -/
def durInt? (s : String) : Option Int :=
  parseIntChars (stripMinCh s.data)

/-- Descending-count order used by `value_counts()`. -/
def countGe {α : Type} (a b : α × Nat) : Prop := b.2 ≤ a.2

instance {α : Type} : DecidableRel (@countGe α) :=
  fun a b => inferInstanceAs (Decidable (b.2 ≤ a.2))

instance {α : Type} : IsTotal (α × Nat) countGe :=
  ⟨fun a b => Nat.le_total b.2 a.2⟩

instance {α : Type} : IsTrans (α × Nat) countGe :=
  ⟨fun _ _ _ h1 h2 => Nat.le_trans h2 h1⟩

/-- `Series.value_counts()`: one `(value, count)` pair per distinct value,
sorted by count descending (tie order deterministic but unspecified in
pandas). -/
def value_counts {α : Type} [DecidableEq α] (l : List α) : List (α × Nat) :=
  List.insertionSort countGe ((uniqKeys l).map (fun k => (k, cnt k l)))

/-- Line 155: `filtered_df[filtered_df['country'] != 'Unknown']['country']
.str.split(', ').explode()`.  Note the `!= 'Unknown'` test is applied to the
whole (un-split) field before exploding. -/
def explodedCountries (f : List Row) : List String :=
  (((f.filter (fun r => decide (r.country ≠ some "Unknown"))).filterMap Row.country).map splitComma).flatten

/-- Line 157: `country_data[country_data != 'United States']`. -/
def country_data_no_usa (f : List Row) : List String :=
  (explodedCountries f).filter (fun c => decide (c ≠ "United States"))

/-- Lines 160-161: `country_data_no_usa.value_counts().head(10)`. -/
def country_counts (f : List Row) : List (String × Nat) :=
  (value_counts (country_data_no_usa f)).take 10

/-- Lines 179-180: `filtered_df['rating'].value_counts()` (`value_counts`
drops `NaN` cells). -/
def rating_counts (f : List Row) : List (String × Nat) :=
  value_counts (f.filterMap Row.rating)

/-- `calendar.month_name[1:]` (line 128). -/
def monthNames : List String :=
  ["January", "February", "March", "April", "May", "June",
   "July", "August", "September", "October", "November", "December"]

/-- `Series.dt.month_name()` for a month number `1..12`. -/
def monthName (m : Nat) : String := monthNames.getD (m - 1) ""

/-- The `(year_added, month_added)` key of one row (lines 123-124); `groupby`
drops rows whose key contains `NaN`. -/
def dateKey (r : Row) : Option (Nat × String) :=
  r.date_added.map (fun d => (d.1, monthName d.2))

/-- The multiset of `(year_added, month_added)` keys of the filtered frame. -/
def heatKeys (f : List Row) : List (Nat × String) :=
  f.filterMap dateKey

/-- Line 126: `groupby(['year_added', 'month_added']).size()` as an
association list from key to group size.  (The later categorical re-ordering
and `sort_values` of lines 128-130 only permute these entries and cannot
change the pivot below, which is keyed, not positional.) -/
def heatmap_grouped (f : List Row) : List ((Nat × String) × Nat) :=
  (uniqKeys (heatKeys f)).map (fun k => (k, cnt k (heatKeys f)))

/-- The row axis of the pivot: observed `year_added` values, deduplicated and
sorted ascending (pandas `pivot` sorts its index). -/
def heat_years (f : List Row) : List Nat :=
  List.insertionSort (· ≤ ·) (uniqKeys (f.filterMap (fun r => r.date_added.map Prod.fst)))

/-- Line 132: `pivot(index='year_added', columns='month_added',
values='count').fillna(0)`.  Because `month_added` was made an ordered
`Categorical` over all twelve month names, unstacking yields one column per
calendar month in calendar order, with unobserved combinations filled by 0. -/
def heatmap_pivot (f : List Row) : List (Nat × List Nat) :=
  (heat_years f).map (fun y =>
    (y, monthNames.map (fun m => (lookupD (y, m) (heatmap_grouped f)).getD 0)))

/-- Lines 201-205: the rows feeding plot 5 — movies whose `duration` contains
`' min'` (`na=False`), then `dropna(subset=['listed_in'])`. -/
def isBoxRow (r : Row) : Bool :=
  decide (r.type = "Movie") &&
    (match r.duration with
     | some d => containsMin d
     | none => false)

/-- The selection `box_data` of lines 201-205. -/
def box_rows (f : List Row) : List Row :=
  (f.filter isBoxRow).filter (fun r => r.listed_in.isSome)

/-- Lines 207-209: if `box_data` is non-empty, convert the whole `duration`
column with `str.replace(' min', '').astype(int)` — `astype` converts every
cell or raises `ValueError` if any single cell fails — and read off the main
genre.  Output: one `(main_genre, duration_int)` pair per retained row. -/
def box_data (f : List Row) : Except String (List (String × Int)) :=
  let b := box_rows f
  if b.all (fun r => (durInt? (r.duration.getD "")).isSome) then
    .ok (b.map (fun r => (mainGenre (r.listed_in.getD ""), (durInt? (r.duration.getD "")).getD 0)))
  else .error "ValueError"

/-- The aggregated panel values rendered in the `else` branch of line 71. -/
structure Panels where
  titles : Nat
  movies : Nat
  shows : Nat
  heatmap : List (Nat × List Nat)
  countries : List (String × Nat)
  ratings : List (String × Nat)
  box : List (String × Int)
deriving DecidableEq

/-- Outcome of the page body: the single `st.warning` of line 70, or the
rendered panels. -/
inductive RenderOut where
  | noData : RenderOut
  | panels : Panels → RenderOut
deriving DecidableEq

/-- Lines 69-229: `if filtered_df.empty: st.warning(...) else: <all metrics
and plots>`.  On the empty filtered frame the script emits the single warning
and evaluates no aggregator at all; otherwise it computes every panel (and a
`ValueError` escaping `box_data` would abort the script). -/
def dashboard (f : List Row) : Except String RenderOut :=
  if f.isEmpty then .ok .noData
  else do
    let bd ← box_data f
    .ok (.panels ⟨total_titles f, total_movies f, total_shows f,
      heatmap_pivot f, country_counts f, rating_counts f, bd⟩)

/-- Modelled from the spec: the `@st.cache_data` decorator on `load_data` is
implemented by the streamlit library (not in this repository); per the spec it
memoizes the cleaned table per input path for the life of the process.  The
cache is an explicit path-keyed association list and `reads` counts the
executions of the underlying loader. -/
structure CacheState where
  cache : List (String × PDFrame)
  reads : Nat
deriving DecidableEq

/-- Modelled from the spec: one call of the cached loader — return the
memoized table when the path was already loaded, otherwise run `load_data`
once and record the result. -/
def cached_load (fs : String → Option (List Row)) (st : CacheState) (path : String) :
    CacheState × PDFrame :=
  match lookupD path st.cache with
  | some t => (st, t)
  | none =>
    let t := load_data_fs fs path
    (⟨(path, t) :: st.cache, st.reads + 1⟩, t)

/-- A movie row whose `country` list contains the sentinel `"Unknown"` as one
of several comma-separated values. -/
def mixedCountryRow : Row :=
  ⟨"Movie", some "PG", 2020, some (2020, 1), some "India, Unknown", some "D",
    some "C", some "Drama", some "90 min"⟩

/-- A movie row with a single non-sentinel country. -/
def intlRow : Row :=
  ⟨"Movie", some "PG", 2020, some (2020, 1), some "India", some "Unknown",
    some "Unknown", some "Drama", some "90 min"⟩

/-- A movie row whose duration contains `' min'` but is not an integer once
the suffix is stripped. -/
def badDurRow : Row :=
  ⟨"Movie", some "PG", 2020, some (2020, 1), some "Unknown", some "Unknown",
    some "Unknown", some "Drama, Action", some "abc min"⟩

/-- A movie row with a well-formed `"90 min"` duration. -/
def goodDurRow : Row :=
  ⟨"Movie", some "PG", 2020, some (2020, 1), some "Unknown", some "Unknown",
    some "Unknown", some "Drama, Action", some "90 min"⟩

/-- A row added in June 2020. -/
def addedRow1 : Row :=
  ⟨"Movie", some "PG", 2020, some (2020, 6), some "Unknown", some "Unknown",
    some "Unknown", some "Drama", some "90 min"⟩

/-- A row added in June 2019 (same month, different year). -/
def addedRow2 : Row :=
  ⟨"TV Show", some "TV-MA", 2019, some (2019, 6), some "Unknown", some "Unknown",
    some "Unknown", some "Comedy", some "2 Seasons"⟩

/-! ### Helper lemmas -/

theorem mem_uniqKeys {α : Type} [DecidableEq α] (l : List α) (k : α) :
    k ∈ uniqKeys l ↔ k ∈ l := by
  induction l with
  | nil => simp [uniqKeys]
  | cons x xs ih =>
    by_cases h : x ∈ xs
    · simp only [uniqKeys, if_pos h, ih, List.mem_cons]
      constructor
      · exact Or.inr
      · rintro (rfl | hk)
        · exact h
        · exact hk
    · simp only [uniqKeys, if_neg h, List.mem_cons, ih]

theorem lookupD_mapKeys {α β : Type} [DecidableEq α] (f : α → β) (ks : List α) (k : α) :
    lookupD k (ks.map (fun x => (x, f x))) = if k ∈ ks then some (f k) else none := by
  induction ks with
  | nil => simp [lookupD]
  | cons a ks ih =>
    simp only [List.map_cons, lookupD]
    by_cases h : a = k
    · subst h
      simp
    · rw [if_neg h, ih]
      by_cases hk : k ∈ ks
      · rw [if_pos hk, if_pos (List.mem_cons_of_mem _ hk)]
      · rw [if_neg hk, if_neg ?_]
        simp only [List.mem_cons, not_or]
        exact ⟨fun hh => h hh.symm, hk⟩

theorem cnt_eq_zero_of_not_mem {α : Type} [DecidableEq α] {k : α} {l : List α} (h : k ∉ l) :
    cnt k l = 0 := by
  rw [cnt, List.countP_eq_zero]
  intro a ha
  simp only [decide_eq_true_eq]
  rintro rfl
  exact h ha

theorem cnt_filterMap {α β : Type} [DecidableEq β] (g : α → Option β) (k : β) (l : List α) :
    cnt k (l.filterMap g) = l.countP (fun a => decide (g a = some k)) := by
  induction l with
  | nil => rfl
  | cons a l ih =>
    rw [List.filterMap_cons, List.countP_cons]
    cases h : g a with
    | none => simp [h, ih]
    | some b =>
      simp only [cnt, List.countP_cons] at ih ⊢
      rw [ih]
      simp [h]

theorem countP_pair_le {α : Type} (p q : α → Bool)
    (hpq : ∀ a, ¬(p a = true ∧ q a = true)) (l : List α) :
    l.countP p + l.countP q ≤ l.length := by
  induction l with
  | nil => simp
  | cons a l ih =>
    rw [List.countP_cons, List.countP_cons, List.length_cons]
    have ha := hpq a
    rcases hp : p a with _ | _ <;> rcases hq : q a with _ | _ <;> simp_all <;> omega

theorem countP_pair_lt {α : Type} (p q : α → Bool)
    (hpq : ∀ a, ¬(p a = true ∧ q a = true)) {l : List α} {r : α}
    (hr : r ∈ l) (h1 : p r = false) (h2 : q r = false) :
    l.countP p + l.countP q < l.length := by
  induction l with
  | nil => cases hr
  | cons a l ih =>
    rw [List.countP_cons, List.countP_cons, List.length_cons]
    rcases List.mem_cons.mp hr with rfl | hr'
    · have hle := countP_pair_le p q hpq l
      simp only [h1, h2]
      simp
      omega
    · have hlt := ih hr'
      have ha := hpq a
      rcases hp : p a with _ | _ <;> rcases hq : q a with _ | _ <;> simp_all <;> omega

theorem filter_self_filter {α : Type} (p : α → Bool) (l : List α) :
    (l.filter p).filter p = l.filter p := by
  rw [List.filter_filter]
  have : (fun a => p a && p a) = p := by
    funext a
    exact Bool.and_self (p a)
  rw [this]

theorem countP_congr_mem {α : Type} {p q : α → Bool} :
    ∀ {l : List α}, (∀ a ∈ l, p a = q a) → l.countP p = l.countP q := by
  intro l
  induction l with
  | nil => intro _; rfl
  | cons a l ih =>
    intro h
    rw [List.countP_cons, List.countP_cons,
      ih (fun x hx => h x (List.mem_cons_of_mem _ hx)), h a (List.mem_cons_self a l)]

theorem mem_value_counts {α : Type} [DecidableEq α] {l : List α} {p : α × Nat}
    (h : p ∈ value_counts l) : p.1 ∈ l ∧ p.2 = cnt p.1 l := by
  rw [value_counts] at h
  have h2 := (List.perm_insertionSort countGe _).mem_iff.mp h
  rw [List.mem_map] at h2
  obtain ⟨k, hk, rfl⟩ := h2
  exact ⟨(mem_uniqKeys _ _).mp hk, rfl⟩

theorem heat_cell_eq (f : List Row) (y : Nat) (m : String) :
    (lookupD (y, m) (heatmap_grouped f)).getD 0 = cnt (y, m) (heatKeys f) := by
  rw [heatmap_grouped, lookupD_mapKeys]
  by_cases h : (y, m) ∈ uniqKeys (heatKeys f)
  · rw [if_pos h]
    rfl
  · rw [if_neg h]
    have hnm : (y, m) ∉ heatKeys f := fun hmem => h ((mem_uniqKeys _ _).mpr hmem)
    rw [Option.getD_none, cnt_eq_zero_of_not_mem hnm]

theorem monthName_eq_iff :
    ∀ m < 13, ∀ i < 12, 1 ≤ m → ((monthName m = monthNames.getD i "") ↔ m = i + 1) := by
  decide

/-! ### Claim theorems -/

/-- Claim C1: `filtered_df` (lines 62-67) returns exactly the rows of the
catalog whose `type` is one of the selected types, whose `rating` is one of the
selected ratings, and whose `release_year` lies in the inclusive slider range;
the result is a subset (in fact an order-preserving sublist) of the catalog's
rows, and — the embedding being a pure function of `df` — the source catalog is
not mutated. -/
theorem filter_exact_rows (df : List Row) (typeF ratingF : List String) (ylo yhi : Int) :
    (filtered_df df typeF ratingF ylo yhi).Sublist df ∧
    ∀ r : Row, r ∈ filtered_df df typeF ratingF ylo yhi ↔
      (r ∈ df ∧ r.type ∈ typeF ∧ (∃ s, r.rating = some s ∧ s ∈ ratingF) ∧
        ylo ≤ r.release_year ∧ r.release_year ≤ yhi) := by
  refine ⟨List.filter_sublist df, fun r => ?_⟩
  rw [filtered_df, List.mem_filter]
  constructor
  · rintro ⟨hmem, hmask⟩
    simp only [rowMask, Bool.and_eq_true, decide_eq_true_eq] at hmask
    obtain ⟨⟨⟨ht, hr⟩, hy1⟩, hy2⟩ := hmask
    refine ⟨hmem, ht, ?_, hy1, hy2⟩
    cases hx : r.rating with
    | none => simp [ratingMem, hx] at hr
    | some s =>
      simp only [ratingMem, hx, decide_eq_true_eq] at hr
      exact ⟨s, rfl, hr⟩
  · rintro ⟨hmem, ht, ⟨s, hs, hsF⟩, hy1, hy2⟩
    refine ⟨hmem, ?_⟩
    simp [rowMask, ratingMem, hs, ht, hsF, hy1, hy2]

/-- Claim C8: the filter is idempotent — re-filtering its own output with the
same type/rating/year inputs returns the same rows. -/
theorem filter_idempotent (df : List Row) (typeF ratingF : List String) (ylo yhi : Int) :
    filtered_df (filtered_df df typeF ratingF ylo yhi) typeF ratingF ylo yhi =
      filtered_df df typeF ratingF ylo yhi :=
  filter_self_filter _ _

/-- Claim C3: every row returned by the cleaning pass of `load_data` has
non-null `rating`, `date_added` and `duration` (those rows were dropped) and
non-null `country`, `director` and `cast`; moreover each returned row comes
from a source row by the `fillna` map, and a missing `country`/`director`/
`cast` was replaced by the literal `"Unknown"`. -/
theorem load_data_no_nulls (rows : List Row) (r : Row) (h : r ∈ load_data rows) :
    r.rating ≠ none ∧ r.date_added ≠ none ∧ r.duration ≠ none ∧
    r.country ≠ none ∧ r.director ≠ none ∧ r.cast ≠ none ∧
    ∃ q ∈ rows, r = fillRow q ∧
      (q.country = none → r.country = some "Unknown") ∧
      (q.director = none → r.director = some "Unknown") ∧
      (q.cast = none → r.cast = some "Unknown") := by
  rw [load_data, List.mem_filter] at h
  obtain ⟨hm, hk⟩ := h
  rw [List.mem_map] at hm
  obtain ⟨q, hq, rfl⟩ := hm
  simp only [keepRow, Bool.and_eq_true, Option.isSome_iff_ne_none] at hk
  refine ⟨hk.1.1, hk.1.2, hk.2, ?_, ?_, ?_, q, hq, rfl, ?_, ?_, ?_⟩ <;>
    intros <;> simp_all [fillRow]

/-- The raw row used to witness C3. -/
def rawRow3 : Row :=
  ⟨"Movie", some "PG-13", 2020, some (2020, 1), none, none, none, some "Drama", some "90 min"⟩

/-- Witness for C3: the hypothesis of `load_data_no_nulls` is satisfiable — the
cleaned version of `rawRow3` is in the loader's output, and the theorem applies
to it. -/
theorem load_data_no_nulls_witness :
    (fillRow rawRow3 ∈ load_data [rawRow3]) ∧ (fillRow rawRow3).rating ≠ none :=
  ⟨by decide, (load_data_no_nulls [rawRow3] (fillRow rawRow3) (by decide)).1⟩

/-- Claim C2 (refuted — code bug): on a missing input file `load_data` does
report the error and return the empty table (`pd.DataFrame()`), but that frame
has no columns, so the very next downstream step `df['type'].unique()`
(line 36) raises `KeyError` — the pipeline does not tolerate the empty catalog
and never reaches a "no data" state. -/
theorem missing_file_pipeline_crashes :
    load_data_fs (fun _ => none) "netflix_titles.csv" = ⟨false, []⟩ ∧
    sidebar_options (load_data_fs (fun _ => none) "netflix_titles.csv") =
      .error "KeyError: type" :=
  ⟨rfl, rfl⟩

/-- Claim C10: a row is counted in `total_movies` only when its `type` is
exactly `"Movie"` and in `total_shows` only when it is exactly `"TV Show"`, so
the two splits never sum past `total_titles`; a row of any other type (e.g.
`"TVShow"`) makes the inequality strict — counted in the total but in neither
split. -/
theorem metrics_split (f : List Row) :
    total_movies f + total_shows f ≤ total_titles f ∧
    (∀ r ∈ f, r.type ≠ "Movie" → r.type ≠ "TV Show" →
      total_movies f + total_shows f < total_titles f) := by
  have hpq : ∀ r : Row,
      ¬(decide (r.type = "Movie") = true ∧ decide (r.type = "TV Show") = true) := by
    intro r h
    simp only [decide_eq_true_eq] at h
    exact (by decide : ("Movie" : String) ≠ "TV Show") (h.1 ▸ h.2)
  constructor
  · exact countP_pair_le _ _ hpq f
  · intro r hr h1 h2
    exact countP_pair_lt _ _ hpq hr (by simp [h1]) (by simp [h2])

/-- A row whose `type` is the space-less string `"TVShow"`. -/
def oddTypeRow : Row :=
  ⟨"TVShow", some "PG", 2020, some (2020, 1), some "Unknown", some "Unknown",
    some "Unknown", some "Comedy", some "2 Seasons"⟩

/-- Witness for C10: with one `"TVShow"` row the hypotheses hold and the split
counts fall strictly short of the total. -/
theorem metrics_split_witness :
    (oddTypeRow ∈ [oddTypeRow]) ∧
    total_movies [oddTypeRow] + total_shows [oddTypeRow] < total_titles [oddTypeRow] :=
  ⟨by decide, (metrics_split [oddTypeRow]).2 oddTypeRow (by decide) (by decide) (by decide)⟩

/-- Claim C5: an empty selection is handled by the single `st.warning` of
line 70 — the empty type selection filters away every row, and the dashboard
body emits the lone "no data" signal exactly when the filtered frame is empty,
evaluating no aggregator and raising nothing (`Except.ok`) in that case. -/
theorem empty_filter_short_circuit (df f : List Row) (ratingF : List String) (ylo yhi : Int) :
    filtered_df df [] ratingF ylo yhi = [] ∧
    (dashboard f = .ok RenderOut.noData ↔ f = []) := by
  constructor
  · rw [filtered_df, List.filter_eq_nil_iff]
    intro r _
    simp [rowMask]
  · cases f with
    | nil => simp [dashboard]
    | cons a l =>
      rw [dashboard]
      simp only [List.isEmpty_cons, if_false]
      cases h : box_data (a :: l) with
      | ok bd => simp [h, Bind.bind, Except.bind]
      | error e => simp [h, Bind.bind, Except.bind]

/-- Claim C9 (cache semantics modelled from the spec): the cached loader is
deterministic — from the fresh cache it returns exactly the pure cleaning
result for the path — and a repeated call with the same path returns the
identical table while changing nothing (same cache, same read count: the file
is not re-read and the table is computed at most once per path). -/
theorem cached_load_memoizes (fs : String → Option (List Row)) (st : CacheState) (path : String) :
    (cached_load fs ⟨[], 0⟩ path).2 = load_data_fs fs path ∧
    cached_load fs (cached_load fs st path).1 path = cached_load fs st path := by
  refine ⟨rfl, ?_⟩
  cases h : lookupD path st.cache with
  | some t =>
    have h1 : cached_load fs st path = (st, t) := by rw [cached_load, h]
    rw [h1, cached_load, h]
  | none =>
    have h1 : cached_load fs st path =
        (⟨(path, load_data_fs fs path) :: st.cache, st.reads + 1⟩, load_data_fs fs path) := by
      rw [cached_load, h]
    rw [h1, cached_load]
    simp [lookupD]

/-- Claim C6 counterexample: the code removes the sentinel only as a whole
field *before* exploding (line 155), so a multi-valued field such as
`"India, Unknown"` leaks an `"Unknown"` group into the exploded counts — the
claim that the aggregator "excludes the sentinel value Unknown … from the
exploded counts" is false on this catalog. -/
theorem country_counts_unknown_leaks :
    ("Unknown", 1) ∈ country_counts [mixedCountryRow] := by
  decide

/-- Claim C6 (amended): the top-countries aggregator explodes the
comma-separated `country` field of the rows whose *whole field* differs from
the sentinel `"Unknown"` (the pre-explosion exclusion of line 155), drops the
exploded value `"United States"`, and returns at most 10 groups ordered by
count (descending), each group's count being its number of occurrences among
the retained exploded values. -/
theorem country_counts_props (f : List Row) :
    (country_counts f).length ≤ 10 ∧
    List.Sorted countGe (country_counts f) ∧
    ∀ p ∈ country_counts f,
      p.1 ≠ "United States" ∧ p.2 = cnt p.1 (country_data_no_usa f) ∧
      ∃ r ∈ f, r.country ≠ some "Unknown" ∧ ∃ c, r.country = some c ∧ p.1 ∈ splitComma c := by
  refine ⟨?_, ?_, ?_⟩
  · rw [country_counts, List.length_take]
    exact min_le_left _ _
  · exact List.Pairwise.sublist (List.take_sublist _ _) (List.sorted_insertionSort countGe _)
  · intro p hp
    have hp' : p ∈ value_counts (country_data_no_usa f) := (List.take_sublist _ _).mem hp
    obtain ⟨hk, hc⟩ := mem_value_counts hp'
    rw [country_data_no_usa, List.mem_filter] at hk
    obtain ⟨hex, hus⟩ := hk
    refine ⟨by simpa using hus, hc, ?_⟩
    rw [explodedCountries, List.mem_flatten] at hex
    obtain ⟨cs, hcs, hmem⟩ := hex
    rw [List.mem_map] at hcs
    obtain ⟨c, hcmem, rfl⟩ := hcs
    rw [List.mem_filterMap] at hcmem
    obtain ⟨r, hrmem, hrc⟩ := hcmem
    rw [List.mem_filter] at hrmem
    obtain ⟨hrf, hrU⟩ := hrmem
    exact ⟨r, hrf, by simpa using hrU, c, hrc, hmem⟩

/-- Witness for the amended C6: with one `"India"` row, `("India", 1)` is in
the output and the theorem's per-group conclusion applies to it. -/
theorem country_counts_props_witness :
    (("India", 1) ∈ country_counts [intlRow]) ∧
    (("India", 1).1 ≠ "United States" ∧
      ("India", 1).2 = cnt ("India", 1).1 (country_data_no_usa [intlRow]) ∧
      ∃ r ∈ [intlRow], r.country ≠ some "Unknown" ∧
        ∃ c, r.country = some c ∧ ("India", 1).1 ∈ splitComma c) :=
  ⟨by decide, (country_counts_props [intlRow]).2.2 ("India", 1) (by decide)⟩

/-- Claim C7: the heatmap pivot has the observed `year_added` values, sorted
ascending, as its row axis (one row per observed year, a year is observed iff
some catalog row was added in it), and per year a vector of twelve cells in
calendar-month order whose `i`-th entry counts exactly the rows added in
month `i+1` of that year — so unobserved (year, month) combinations hold 0,
and rows added in the same month of different years land in two distinct
cells. -/
theorem heatmap_matrix (f : List Row)
    (hm : ∀ r ∈ f, ∀ d : Nat × Nat, r.date_added = some d → 1 ≤ d.2 ∧ d.2 ≤ 12) :
    List.Sorted (· ≤ ·) ((heatmap_pivot f).map Prod.fst) ∧
    (∀ y : Nat, y ∈ (heatmap_pivot f).map Prod.fst ↔
      ∃ r ∈ f, ∃ d : Nat × Nat, r.date_added = some d ∧ d.1 = y) ∧
    ∀ p ∈ heatmap_pivot f, p.2.length = 12 ∧
      ∀ i < 12, p.2.getD i 0 =
        f.countP (fun r => decide (r.date_added = some (p.1, i + 1))) := by
  have hlen12 : monthNames.length = 12 := rfl
  have hfst : (heatmap_pivot f).map Prod.fst = heat_years f := by
    rw [heatmap_pivot, List.map_map]
    have hid : (Prod.fst ∘ fun y =>
        (y, monthNames.map (fun m => (lookupD (y, m) (heatmap_grouped f)).getD 0))) =
        (id : Nat → Nat) := rfl
    rw [hid, List.map_id]
  refine ⟨?_, ?_, ?_⟩
  · rw [hfst, heat_years]
    exact List.sorted_insertionSort _ _
  · intro y
    rw [hfst, heat_years, (List.perm_insertionSort _ _).mem_iff, mem_uniqKeys,
      List.mem_filterMap]
    constructor
    · rintro ⟨r, hr, hmap⟩
      rw [Option.map_eq_some'] at hmap
      obtain ⟨d, hd, hdy⟩ := hmap
      exact ⟨r, hr, d, hd, hdy⟩
    · rintro ⟨r, hr, d, hd, hdy⟩
      refine ⟨r, hr, ?_⟩
      rw [hd, Option.map_some']
      exact congrArg some hdy
  · intro p hp
    rw [heatmap_pivot, List.mem_map] at hp
    obtain ⟨y, hy, rfl⟩ := hp
    constructor
    · rw [List.length_map]
      rfl
    · intro i hi
      have hilen : i < monthNames.length := by
        rw [hlen12]
        exact hi
      have hmlen : i < (monthNames.map
          (fun m => (lookupD (y, m) (heatmap_grouped f)).getD 0)).length := by
        rw [List.length_map, hlen12]
        exact hi
      rw [List.getD_eq_getElem _ _ hmlen, List.getElem_map, heat_cell_eq, heatKeys,
        cnt_filterMap]
      apply countP_congr_mem
      intro r hr
      cases hd : r.date_added with
      | none => simp [dateKey, hd]
      | some d =>
        have hmd := hm r hr d hd
        have hname := monthName_eq_iff d.2 (by omega) i hi hmd.1
        have hgd : monthNames.getD i "" = monthNames[i] :=
          List.getD_eq_getElem monthNames "" hilen
        simp only [dateKey, hd, Option.map_some']
        rw [decide_eq_decide]
        simp only [Option.some.injEq, Prod.ext_iff]
        rw [← hgd, hname]

/-- Witness for C7: two rows added in June of 2019 and 2020 satisfy the
month-range hypothesis; the year axis is sorted and the two additions occupy
two distinct cells of the pivot (one per year row), not a merged one. -/
theorem heatmap_matrix_witness :
    (∀ r ∈ [addedRow1, addedRow2], ∀ d : Nat × Nat,
      r.date_added = some d → 1 ≤ d.2 ∧ d.2 ≤ 12) ∧
    List.Sorted (· ≤ ·) ((heatmap_pivot [addedRow1, addedRow2]).map Prod.fst) ∧
    heatmap_pivot [addedRow1, addedRow2] =
      [(2019, [0, 0, 0, 0, 0, 1, 0, 0, 0, 0, 0, 0]),
       (2020, [0, 0, 0, 0, 0, 1, 0, 0, 0, 0, 0, 0])] := by
  have hm : ∀ r ∈ [addedRow1, addedRow2], ∀ d : Nat × Nat,
      r.date_added = some d → 1 ≤ d.2 ∧ d.2 ≤ 12 := by
    intro r hr d hd
    rcases List.mem_cons.mp hr with rfl | hr2
    · rw [show addedRow1.date_added = some (2020, 6) from rfl] at hd
      injection hd with h
      subst h
      exact ⟨by decide, by decide⟩
    · rcases List.mem_singleton.mp hr2 with rfl
      rw [show addedRow2.date_added = some (2019, 6) from rfl] at hd
      injection hd with h
      subst h
      exact ⟨by decide, by decide⟩
  exact ⟨hm, (heatmap_matrix _ hm).1, by decide⟩

/-- Claim C4 counterexample: a movie row whose duration contains `' min'` but
whose remainder is not an integer (`"abc min"`) makes
`str.replace(' min','').astype(int)` raise `ValueError` — the aggregator does
raise instead of excluding the row, so the claim as stated is false. -/
theorem box_data_raises : box_data [badDurRow] = .error "ValueError" := rfl

/-- Claim C4 (amended): the movie-runtime aggregator strips `' min'` before
integer conversion and excludes from its own selection exactly the rows that
are not movies, lack the `' min'` substring in `duration`, or have a null
`listed_in` — those rows stay in the filtered view (`box_rows` is a sublist
and the input is untouched); but when every selected duration parses, the
conversion succeeds, and a selected row whose stripped duration is not an
integer makes the conversion raise (see `box_data_raises`) rather than being
excluded. -/
theorem box_data_amended (f : List Row)
    (h : ∀ r ∈ box_rows f, (durInt? (r.duration.getD "")).isSome = true) :
    (box_rows f).Sublist f ∧
    (∀ r : Row, r ∈ box_rows f ↔ (r ∈ f ∧ r.type = "Movie" ∧
      (∃ d, r.duration = some d ∧ containsMin d = true) ∧ r.listed_in ≠ none)) ∧
    box_data f = .ok ((box_rows f).map
      (fun r => (mainGenre (r.listed_in.getD ""), (durInt? (r.duration.getD "")).getD 0))) := by
  refine ⟨(List.filter_sublist _).trans (List.filter_sublist _), ?_, ?_⟩
  · intro r
    rw [box_rows, List.mem_filter, List.mem_filter]
    constructor
    · rintro ⟨⟨hrf, hbox⟩, hsome⟩
      simp only [isBoxRow, Bool.and_eq_true, decide_eq_true_eq] at hbox
      obtain ⟨htype, hdur⟩ := hbox
      refine ⟨hrf, htype, ?_, by simpa [Option.isSome_iff_ne_none] using hsome⟩
      cases hx : r.duration with
      | none =>
        rw [hx] at hdur
        simp at hdur
      | some d =>
        rw [hx] at hdur
        exact ⟨d, rfl, hdur⟩
    · rintro ⟨hrf, htype, ⟨d, hd, hcm⟩, hli⟩
      refine ⟨⟨hrf, ?_⟩, by simpa [Option.isSome_iff_ne_none] using hli⟩
      simp [isBoxRow, htype, hd, hcm]
  · simp only [box_data]
    rw [if_pos (List.all_eq_true.mpr h)]

/-- Witness for the amended C4: on a catalog of one `"90 min"` movie the parse
hypothesis holds and the aggregator returns the stripped, converted runtime
with the main genre. -/
theorem box_data_amended_witness :
    (∀ r ∈ box_rows [goodDurRow], (durInt? (r.duration.getD "")).isSome = true) ∧
    box_data [goodDurRow] = .ok ((box_rows [goodDurRow]).map
      (fun r => (mainGenre (r.listed_in.getD ""), (durInt? (r.duration.getD "")).getD 0))) :=
  ⟨by decide, (box_data_amended [goodDurRow] (by decide)).2.2⟩
